import Mathlib

/-
Verification of the revenue-projection engine of `revenuecalculator.js`.

The component keeps two pieces of state — `chartData` (a list of monthly
samples, initially empty) and `annualProjection` (initially all zeros) —
and recomputes both in a single effect whenever the three inputs change,
unless `experimentDays ≤ 0`, in which case the effect returns early and
the state is left untouched.

JavaScript numbers are modelled by exact rationals `ℚ`: every constant in
the source (365, 0.75, 0.7, 25, 12, 100, 2) and every operation used by
the engine is exact at this granularity.  The one place where IEEE-754
specialties matter — the unguarded division `variantRevenue /
controlRevenue` rendered at line 147 — is modelled separately by the
`JSNum` type, which carries the two infinities and NaN.
-/

/-- The three inputs of the calculator (`experimentDays`, `controlRevenue`,
`variantRevenue` in the source).  The form widgets clamp them, but the
effect itself accepts arbitrary numbers, so all three are plain rationals. -/
structure ExperimentInputs where
  experimentDays : ℚ
  controlRevenue : ℚ
  variantRevenue : ℚ
deriving DecidableEq

/-- The `annualProjection` state object of the component
(fields as in lines 10-15 and 35-40 of the source). -/
structure AnnualProjection where
  rawValue : ℚ
  afterNovelty : ℚ
  lowerRange : ℚ
  upperRange : ℚ
deriving DecidableEq

/-- One entry pushed onto the chart-data array (lines 54-58 of the source). -/
structure MonthlySample where
  month : ℕ
  efficacy : ℚ
  projectedValue : ℚ
deriving DecidableEq

/-- The component state touched by the projection effect. -/
structure CalculatorState where
  chartData : List MonthlySample
  annualProjection : AnnualProjection
deriving DecidableEq

/-- The initial component state: `useState([])` for the chart and an
all-zero projection object (lines 9-15 of the source). -/
def initialState : CalculatorState :=
  { chartData := [],
    annualProjection := { rawValue := 0, afterNovelty := 0, lowerRange := 0, upperRange := 0 } }

/-- Line 48-49 of the source: `progress = month / 12` and
`efficacyPercentage = 100 - (25 * (progress^3 + progress) / 2)`,
written with the repeated product exactly as in the source. -/
def efficacyPercentage (month : ℕ) : ℚ :=
  let progress : ℚ := (month : ℚ) / 12
  100 - (25 * (progress * progress * progress + progress) / 2)

/-- Line 52 of the source: `monthlyValue = rawAnnualValue / 12 * (efficacyPercentage / 100)`. -/
def monthlyValue (rawAnnualValue : ℚ) (month : ℕ) : ℚ :=
  rawAnnualValue / 12 * (efficacyPercentage month / 100)

/-- Lines 44-59 of the source: the `for (let month = 0; month <= 12; month++)`
loop, pushing one sample per iteration in increasing month order. -/
def generateChartData (rawAnnualValue : ℚ) : List MonthlySample :=
  (List.range 13).map fun month =>
    { month := month,
      efficacy := efficacyPercentage month,
      projectedValue := monthlyValue rawAnnualValue month }

/-- Lines 19-62 of the source: the projection `useEffect`.  It returns the
state unchanged when `experimentDays <= 0` (line 20) and otherwise replaces
both `annualProjection` (lines 23-40) and `chartData` (lines 44-61) with
values computed from the inputs alone. -/
def projectionEffect (inputs : ExperimentInputs) (s : CalculatorState) : CalculatorState :=
  if inputs.experimentDays ≤ 0 then s
  else
    let dailyRevenueDifference := inputs.variantRevenue - inputs.controlRevenue
    let rawAnnualValue := (dailyRevenueDifference / inputs.experimentDays) * 365
    let afterNoveltyEffect := rawAnnualValue * 0.75
    let lowerRange := afterNoveltyEffect * 0.7
    let upperRange := afterNoveltyEffect
    { chartData := generateChartData rawAnnualValue,
      annualProjection :=
        { rawValue := rawAnnualValue,
          afterNovelty := afterNoveltyEffect,
          lowerRange := lowerRange,
          upperRange := upperRange } }

/-- Line 146 of the source: the "Daily Revenue Increase" display expression
`(variantRevenue - controlRevenue) / experimentDays`. -/
def dailyRevenueIncrease (inputs : ExperimentInputs) : ℚ :=
  (inputs.variantRevenue - inputs.controlRevenue) / inputs.experimentDays

/-- IEEE-754-style value space for the JavaScript numbers produced by the
"Experiment Lift" expression at line 147: finite values (kept exact as
rationals), the two infinities, and NaN. -/
inductive JSNum where
  | num (q : ℚ)
  | posInf
  | negInf
  | nan
deriving DecidableEq

/-- JavaScript division of two finite numbers.  A zero divisor coming from
the clamped form inputs is `+0`, so `a / 0` is `+Infinity` for `a > 0`,
`-Infinity` for `a < 0`, and `NaN` for `a = 0`. -/
def JSNum.divF (a b : ℚ) : JSNum :=
  if b = 0 then
    if 0 < a then .posInf else if a < 0 then .negInf else .nan
  else .num (a / b)

/-- JavaScript subtraction on the modelled value space. -/
def JSNum.sub : JSNum → JSNum → JSNum
  | .num a, .num b => .num (a - b)
  | .posInf, .num _ => .posInf
  | .negInf, .num _ => .negInf
  | .num _, .posInf => .negInf
  | .num _, .negInf => .posInf
  | .posInf, .negInf => .posInf
  | .negInf, .posInf => .negInf
  | _, _ => .nan

/-- JavaScript multiplication on the modelled value space
(`Infinity * 0 = NaN`, signs as in IEEE-754). -/
def JSNum.mul : JSNum → JSNum → JSNum
  | .num a, .num b => .num (a * b)
  | .posInf, .num b => if 0 < b then .posInf else if b < 0 then .negInf else .nan
  | .num a, .posInf => if 0 < a then .posInf else if a < 0 then .negInf else .nan
  | .negInf, .num b => if 0 < b then .negInf else if b < 0 then .posInf else .nan
  | .num a, .negInf => if 0 < a then .negInf else if a < 0 then .posInf else .nan
  | .posInf, .posInf => .posInf
  | .negInf, .negInf => .posInf
  | .posInf, .negInf => .negInf
  | .negInf, .posInf => .negInf
  | _, _ => .nan

/-- Whether a modelled JavaScript number is finite. -/
def JSNum.isFinite : JSNum → Bool
  | .num _ => true
  | _ => false

/-- Line 147 of the source: the "Experiment Lift" display expression
`(variantRevenue / controlRevenue - 1) * 100`, computed with no guard on
`controlRevenue`. -/
def experimentLiftDisplay (controlRevenue variantRevenue : ℚ) : JSNum :=
  ((JSNum.divF variantRevenue controlRevenue).sub (.num 1)).mul (.num 100)

/-- Unfolding of the projection effect on a positive duration: the effect
ignores the previous state and rebuilds both fields from the inputs. -/
theorem projectionEffect_of_pos (d c v : ℚ) (s : CalculatorState) (hd : 0 < d) :
    projectionEffect ⟨d, c, v⟩ s =
      { chartData := generateChartData (((v - c) / d) * 365),
        annualProjection :=
          { rawValue := ((v - c) / d) * 365,
            afterNovelty := ((v - c) / d) * 365 * 0.75,
            lowerRange := ((v - c) / d) * 365 * 0.75 * 0.7,
            upperRange := ((v - c) / d) * 365 * 0.75 } } := by
  simp [projectionEffect, not_le.mpr hd]

/-- Claim C1: for every input with positive duration, the projection effect
stores `rawValue` equal to the daily lift (the line-146 display value,
`(variantRevenue - controlRevenue) / experimentDays`) times 365,
`afterNovelty = rawValue * 0.75`, `lowerRange = afterNovelty * 0.7` and
`upperRange = afterNovelty`, each later value computed from earlier ones. -/
theorem c1_projection_fields (d c v : ℚ) (s : CalculatorState) (hd : 0 < d) :
    dailyRevenueIncrease ⟨d, c, v⟩ = (v - c) / d
    ∧ (projectionEffect ⟨d, c, v⟩ s).annualProjection.rawValue
        = dailyRevenueIncrease ⟨d, c, v⟩ * 365
    ∧ (projectionEffect ⟨d, c, v⟩ s).annualProjection.afterNovelty
        = (projectionEffect ⟨d, c, v⟩ s).annualProjection.rawValue * 0.75
    ∧ (projectionEffect ⟨d, c, v⟩ s).annualProjection.lowerRange
        = (projectionEffect ⟨d, c, v⟩ s).annualProjection.afterNovelty * 0.7
    ∧ (projectionEffect ⟨d, c, v⟩ s).annualProjection.upperRange
        = (projectionEffect ⟨d, c, v⟩ s).annualProjection.afterNovelty := by
  rw [projectionEffect_of_pos d c v s hd]
  exact ⟨rfl, rfl, rfl, rfl, rfl⟩

/-- Witness for C1 at the spec's worked example
(14 days, control 1000, variant 1200). -/
theorem c1_projection_fields_witness :
    (projectionEffect ⟨14, 1000, 1200⟩ initialState).annualProjection.rawValue
      = dailyRevenueIncrease ⟨14, 1000, 1200⟩ * 365 :=
  (c1_projection_fields 14 1000 1200 initialState (by norm_num)).2.1

/-- Counterexample to Claim C2: at the valid input `durationDays = 14`,
`controlRevenue = 1000`, `variantRevenue = 0`, the computed `upperRange`
is strictly below the computed `lowerRange`, so `lowerBound ≤ upperBound`
fails on the code when `variantRevenue < controlRevenue`. -/
theorem c2_counterexample :
    (0 : ℚ) < 14 ∧ (0 : ℚ) ≤ 1000 ∧ (0 : ℚ) ≤ 0
    ∧ (projectionEffect ⟨14, 1000, 0⟩ initialState).annualProjection.upperRange
      < (projectionEffect ⟨14, 1000, 0⟩ initialState).annualProjection.lowerRange := by
  refine ⟨by norm_num, by norm_num, le_refl 0, ?_⟩
  rw [projectionEffect_of_pos 14 1000 0 initialState (by norm_num)]
  norm_num

/-- Claim C2 as amended: for every valid input (`durationDays > 0`,
revenues nonnegative), `upperBound = 0.75 * rawAnnualValue`; and
`lowerBound ≤ upperBound` holds whenever `variantRevenue ≥ controlRevenue`. -/
theorem c2_amended_bounds (d c v : ℚ) (s : CalculatorState)
    (hd : 0 < d) (hc : 0 ≤ c) (hv : 0 ≤ v) :
    (projectionEffect ⟨d, c, v⟩ s).annualProjection.upperRange
      = 0.75 * (projectionEffect ⟨d, c, v⟩ s).annualProjection.rawValue
    ∧ (c ≤ v →
        (projectionEffect ⟨d, c, v⟩ s).annualProjection.lowerRange
          ≤ (projectionEffect ⟨d, c, v⟩ s).annualProjection.upperRange) := by
  rw [projectionEffect_of_pos d c v s hd]
  constructor
  · exact mul_comm _ _
  · intro hcv
    have hdiff : 0 ≤ (v - c) / d := div_nonneg (by linarith) hd.le
    nlinarith

/-- Witness for the amended C2 at `d = 14`, `c = 1000`, `v = 1200`. -/
theorem c2_amended_bounds_witness :
    (projectionEffect ⟨14, 1000, 1200⟩ initialState).annualProjection.lowerRange
      ≤ (projectionEffect ⟨14, 1000, 1200⟩ initialState).annualProjection.upperRange :=
  (c2_amended_bounds 14 1000 1200 initialState (by norm_num) (by norm_num)
    (by norm_num)).2 (by norm_num)

/-- Claim C3 (code-bug evidence): the unguarded "Experiment Lift" expression
of line 147 evaluates, at `controlRevenue = 0`, to `+Infinity` (for positive
`variantRevenue`) or `NaN` (for `variantRevenue = 0`) — a non-finite value,
not the explicit sentinel/absent representation the spec requires. -/
theorem c3_unguarded_lift_not_finite :
    experimentLiftDisplay 0 1200 = JSNum.posInf
    ∧ experimentLiftDisplay 0 0 = JSNum.nan
    ∧ (experimentLiftDisplay 0 1200).isFinite = false
    ∧ (experimentLiftDisplay 0 0).isFinite = false := by
  refine ⟨?_, ?_, ?_, ?_⟩ <;> decide

/-- Claim C4: when `experimentDays ≤ 0` the effect performs no update —
the state (chart data and projection alike, including the initial
not-yet-computed state) is returned unchanged, and the function is total,
so no exception is raised. -/
theorem c4_skip_on_nonpositive_duration (inputs : ExperimentInputs)
    (s : CalculatorState) (hd : inputs.experimentDays ≤ 0) :
    projectionEffect inputs s = s := by
  simp [projectionEffect, hd]

/-- Witness for C4 at `experimentDays = 0` on the initial state. -/
theorem c4_skip_witness :
    projectionEffect ⟨0, 1000, 1200⟩ initialState = initialState :=
  c4_skip_on_nonpositive_duration ⟨0, 1000, 1200⟩ initialState (by norm_num)

/-- Claim C5: for every month index up to 12 the efficacy value equals
`100 - 25 * (progress^3 + progress) / 2` with `progress = month / 12`,
and lies in the interval `[75, 100]`. -/
theorem c5_efficacy_formula_and_range (m : ℕ) (hm : m ≤ 12) :
    efficacyPercentage m
      = 100 - 25 * (((m : ℚ) / 12) ^ 3 + (m : ℚ) / 12) / 2
    ∧ 75 ≤ efficacyPercentage m ∧ efficacyPercentage m ≤ 100 := by
  refine ⟨by simp only [efficacyPercentage]; ring, ?_, ?_⟩ <;>
    interval_cases m <;> norm_num [efficacyPercentage]

/-- Witness for C5 at month 3. -/
theorem c5_efficacy_witness :
    75 ≤ efficacyPercentage 3 ∧ efficacyPercentage 3 ≤ 100 :=
  ⟨(c5_efficacy_formula_and_range 3 (by norm_num)).2.1,
   (c5_efficacy_formula_and_range 3 (by norm_num)).2.2⟩

/-- Claim C6: for any raw annual value, the chart series starts at
efficacy exactly 100 (month 0) and ends at efficacy exactly 75 (month 12). -/
theorem c6_efficacy_endpoints (raw : ℚ) :
    ((generateChartData raw)[0]?).map MonthlySample.efficacy = some 100
    ∧ ((generateChartData raw)[12]?).map MonthlySample.efficacy = some 75 := by
  constructor <;> simp [generateChartData] <;> norm_num [efficacyPercentage]

/-- Claim C7: the efficacy curve is monotonically non-increasing across
consecutive samples: for month indices up to 11,
`efficacyPercentage m ≥ efficacyPercentage (m + 1)`. -/
theorem c7_efficacy_monotone (m : ℕ) (hm : m ≤ 11) :
    efficacyPercentage (m + 1) ≤ efficacyPercentage m := by
  interval_cases m <;> norm_num [efficacyPercentage]

/-- Witness for C7 at month 5. -/
theorem c7_efficacy_monotone_witness :
    efficacyPercentage 6 ≤ efficacyPercentage 5 :=
  c7_efficacy_monotone 5 (by norm_num)

/-- Claim C8: for every raw annual value (any sign, including 0) the series
has exactly 13 samples, the sample at position `i` has month index `i` (so
the indices are 0..12 in increasing order), efficacy `efficacyPercentage i`
and projected value `raw / 12 * (efficacyPercentage i / 100)`; for raw value
0 every projected value is 0, and the efficacy column never depends on the
raw value. -/
theorem c8_series_shape (raw raw2 : ℚ) :
    (generateChartData raw).length = 13
    ∧ (∀ i (hi : i < (generateChartData raw).length),
        ((generateChartData raw).get ⟨i, hi⟩).month = i
        ∧ ((generateChartData raw).get ⟨i, hi⟩).efficacy = efficacyPercentage i
        ∧ ((generateChartData raw).get ⟨i, hi⟩).projectedValue
            = raw / 12 * (efficacyPercentage i / 100))
    ∧ (∀ s ∈ generateChartData 0, s.projectedValue = 0)
    ∧ (generateChartData raw).map MonthlySample.efficacy
        = (generateChartData raw2).map MonthlySample.efficacy := by
  refine ⟨by simp [generateChartData], ?_, ?_, ?_⟩
  · intro i hi
    simp [generateChartData, monthlyValue]
  · intro s hs
    simp [generateChartData, monthlyValue] at hs
    obtain ⟨m, hm, rfl⟩ := hs
    simp [monthlyValue]
  · simp [generateChartData, List.map_map, Function.comp]

/-- Witness for C8 at raw annual values 42 and 0. -/
theorem c8_series_shape_witness :
    (generateChartData 42).length = 13 :=
  (c8_series_shape 42 0).1

/-- Claim C9: with duration fixed and positive, the stored raw annual value
doubles when the revenue difference doubles, and more generally is linear in
the revenue difference and in the reciprocal of the duration:
`rawValue = ((v - c) * 365) * (1 / d)`. -/
theorem c9_raw_value_linear (d c v c2 v2 : ℚ) (s t : CalculatorState)
    (hd : 0 < d) (hdouble : v2 - c2 = 2 * (v - c)) :
    (projectionEffect ⟨d, c2, v2⟩ t).annualProjection.rawValue
      = 2 * (projectionEffect ⟨d, c, v⟩ s).annualProjection.rawValue
    ∧ (∀ k c3 v3 (u : CalculatorState), v3 - c3 = k * (v - c) →
        (projectionEffect ⟨d, c3, v3⟩ u).annualProjection.rawValue
          = k * (projectionEffect ⟨d, c, v⟩ s).annualProjection.rawValue)
    ∧ (projectionEffect ⟨d, c, v⟩ s).annualProjection.rawValue
        = ((v - c) * 365) * (1 / d) := by
  rw [projectionEffect_of_pos d c2 v2 t hd, projectionEffect_of_pos d c v s hd]
  refine ⟨?_, ?_, by ring⟩
  · rw [hdouble]; ring
  · intro k c3 v3 u h
    rw [projectionEffect_of_pos d c3 v3 u hd, h]; ring

/-- Witness for C9: doubling the difference 200 (control 1000, variant 1200)
to 400 (control 1000, variant 1400) doubles the raw annual value. -/
theorem c9_raw_value_linear_witness :
    (projectionEffect ⟨14, 1000, 1400⟩ initialState).annualProjection.rawValue
      = 2 * (projectionEffect ⟨14, 1000, 1200⟩ initialState).annualProjection.rawValue :=
  (c9_raw_value_linear 14 1000 1200 1000 1400 initialState initialState
    (by norm_num) (by norm_num)).1

/-- Claim C10: for every positive duration and arbitrary revenue values —
negative ones and `variantRevenue < controlRevenue` included — the effect
performs the full computation: the resulting state is independent of the
previous state and both fields are rebuilt from those exact inputs, with no
re-validation of revenue non-negativity. -/
theorem c10_full_recompute (d c v : ℚ) (s : CalculatorState) (hd : 0 < d) :
    projectionEffect ⟨d, c, v⟩ s =
      { chartData := generateChartData (((v - c) / d) * 365),
        annualProjection :=
          { rawValue := ((v - c) / d) * 365,
            afterNovelty := ((v - c) / d) * 365 * 0.75,
            lowerRange := ((v - c) / d) * 365 * 0.75 * 0.7,
            upperRange := ((v - c) / d) * 365 * 0.75 } } :=
  projectionEffect_of_pos d c v s hd

/-- Witness for C10 at negative revenues (`control 5`, `variant -3`),
which upstream clamping would normally prevent. -/
theorem c10_full_recompute_witness :
    projectionEffect ⟨7, 5, -3⟩ initialState =
      { chartData := generateChartData (((-3 - 5) / 7) * 365),
        annualProjection :=
          { rawValue := ((-3 - 5) / 7) * 365,
            afterNovelty := ((-3 - 5) / 7) * 365 * 0.75,
            lowerRange := ((-3 - 5) / 7) * 365 * 0.75 * 0.7,
            upperRange := ((-3 - 5) / 7) * 365 * 0.75 } } :=
  c10_full_recompute 7 5 (-3) initialState (by norm_num)
